import Mathlib

/-!
Verification of the go-9pserver repository: a shallow embedding of the
9P2000 wire codec (src/messages.go), the per-connection session state
machine (src/main.go), and the local filesystem open-mode logic
(src/server.go), together with theorems settling the frozen claims.

Go strings are byte strings; they are modelled as lists of naturals
(each produced byte is below 256).  Machine integers are modelled as
Nat with explicit reductions modulo 2 ^ w where the Go code converts.
-/

namespace NineP

/-- A Go byte string / byte slice: a list of byte values. -/
abbrev GoStr := List Nat

abbrev Bytes := List Nat

/-! ## Message type constants (src/messages.go, const block) -/

def TversionType : Nat := 100
def RversionType : Nat := 101
def TauthType : Nat := 102
def RauthType : Nat := 103
def TattachType : Nat := 104
def RattachType : Nat := 105
def RerrorType : Nat := 107
def TflushType : Nat := 108
def RflushType : Nat := 109
def TwalkType : Nat := 110
def RwalkType : Nat := 111
def TopenType : Nat := 112
def RopenType : Nat := 113
def TcreateType : Nat := 114
def RcreateType : Nat := 115
def TreadType : Nat := 116
def RreadType : Nat := 117
def TwriteType : Nat := 118
def RwriteType : Nat := 119
def TclunkType : Nat := 120
def RclunkType : Nat := 121
def TremoveType : Nat := 122
def RremoveType : Nat := 123
def TstatType : Nat := 124
def RstatType : Nat := 125
def TwstatType : Nat := 126
def RwstatType : Nat := 127

/-- DMDIR bit from src/messages.go. -/
def DMDIR : Nat := 0x80000000

/-! ## Data model (src/messages.go struct definitions) -/

/-- Qid structure: Ftype uint8, Version uint32, Path uint64. -/
structure Qid where
  ftype : Nat
  version : Nat
  path : Nat
deriving DecidableEq, Repr

/-- Stat structure, fields in wire order (src/messages.go). -/
structure Stat where
  stype : Nat
  dev : Nat
  qid : Qid
  mode : Nat
  atime : Nat
  mtime : Nat
  length : Nat
  name : GoStr
  uid : GoStr
  gid : GoStr
  muid : GoStr
deriving DecidableEq, Repr

/-- The R-message variants the server can emit (src/messages.go structs,
fields in declaration order, which is wire order). -/
inductive RMsg where
  | Rversion (tag msize : Nat) (version : GoStr)
  | Rauth (tag : Nat) (aqid : Qid)
  | Rattach (tag : Nat) (qid : Qid)
  | Rerror (tag : Nat) (ename : GoStr)
  | Rflush (tag : Nat)
  | Rwalk (tag : Nat) (nwqid : List Qid)
  | Ropen (tag : Nat) (qid : Qid) (iouint : Nat)
  | Rcreate (tag : Nat) (qid : Qid) (iouint : Nat)
  | Rread (tag : Nat) (data : Bytes)
  | Rwrite (tag count : Nat)
  | Rclunk (tag : Nat)
  | Rremove (tag : Nat)
  | Rstat (tag : Nat) (stat : Stat)
  | Rwstat (tag : Nat)
deriving DecidableEq, Repr

/-- The T-message variants the server can receive.  Field layout follows
src/messages.go.  The Twrite and Twstat structs in src/messages.go hold
only a Tag field; the remaining fields of those two variants (fid,
offset, data for Twrite; fid, stat for Twstat) are modelled from the
spec, section 4.1, because the session handlers reference them. -/
inductive TMsg where
  | Tversion (tag msize : Nat) (version : GoStr)
  | Tauth (tag afid : Nat) (uname aname : GoStr)
  | Tattach (tag fid afid : Nat) (uname aname : GoStr)
  | Tclunk (tag fid : Nat)
  | Tcreate (tag fid : Nat) (name : GoStr) (perm mode : Nat)
  | Tflush (tag oldtag : Nat)
  | Topen (tag fid mode : Nat)
  | Tread (tag fid offset count : Nat)
  | Tremove (tag fid : Nat)
  | Tstat (tag fid : Nat)
  | Twalk (tag fid newfid : Nat) (nwname : List GoStr)
  | Twrite (tag fid offset : Nat) (data : Bytes)
  | Twstat (tag fid : Nat) (stat : Stat)
deriving DecidableEq, Repr

/-! ## Little-endian writers (src/messages.go writeUint / writeString) -/

/-- One byte, as written by writeUint over uint8. -/
def u8le (n : Nat) : Bytes := [n % 256]

/-- Two bytes, little endian, as written by writeUint over uint16. -/
def u16le (n : Nat) : Bytes := [n % 256, n / 256 % 256]

/-- Four bytes, little endian, as written by writeUint over uint32. -/
def u32le (n : Nat) : Bytes :=
  [n % 256, n / 256 % 256, n / 65536 % 256, n / 16777216 % 256]

/-- Eight bytes, little endian, as written by writeUint over uint64. -/
def u64le (n : Nat) : Bytes :=
  [n % 256, n / 256 % 256, n / 65536 % 256, n / 16777216 % 256,
   n / 4294967296 % 256, n / 1099511627776 % 256,
   n / 281474976710656 % 256, n / 72057594037927936 % 256]

/-- writeString: u16 length (after the uint16 conversion) then the raw
bytes (src/messages.go writeString). -/
def writeString (s : GoStr) : Bytes := u16le (s.length % 65536) ++ s

/-- Wire form of a Qid: the serializeMessage2 recursion over its
uint8, uint32, uint64 fields. -/
def qidBytes (q : Qid) : Bytes :=
  u8le q.ftype ++ u32le q.version ++ u64le q.path

/-- Body of a Stat record: serializeMessage2 over the Stat fields in
declaration order (src/messages.go). -/
def statBody (s : Stat) : Bytes :=
  u16le s.stype ++ u32le s.dev ++ qidBytes s.qid ++ u32le s.mode ++
  u32le s.atime ++ u32le s.mtime ++ u64le s.length ++
  writeString s.name ++ writeString s.uid ++ writeString s.gid ++
  writeString s.muid

/-- serializeStat (src/messages.go): writes the body prefixed with one
inner u16 length, and additionally an outer u16 length (body length
plus two) when writeLength is set, as happens for a Stat field inside a
message. -/
def serializeStat (s : Stat) (writeLength : Bool) : Bytes :=
  let b := statBody s
  (if writeLength then u16le ((b.length + 2) % 65536) else []) ++
    u16le (b.length % 65536) ++ b

/-- Payload of an R-message: serializeMessage2 applied to the struct
fields in order (src/messages.go serializeMessage2). -/
def rmsgPayload : RMsg → Bytes
  | .Rversion tag msize version => u16le tag ++ u32le msize ++ writeString version
  | .Rauth tag aqid => u16le tag ++ qidBytes aqid
  | .Rattach tag qid => u16le tag ++ qidBytes qid
  | .Rerror tag ename => u16le tag ++ writeString ename
  | .Rflush tag => u16le tag
  | .Rwalk tag nwqid =>
      u16le tag ++ u16le (nwqid.length % 65536) ++ (nwqid.map qidBytes).flatten
  | .Ropen tag qid iouint => u16le tag ++ qidBytes qid ++ u32le iouint
  | .Rcreate tag qid iouint => u16le tag ++ qidBytes qid ++ u32le iouint
  | .Rread tag data => u16le tag ++ u32le (data.length % 4294967296) ++ data
  | .Rwrite tag count => u16le tag ++ u32le count
  | .Rclunk tag => u16le tag
  | .Rremove tag => u16le tag
  | .Rstat tag stat => u16le tag ++ serializeStat stat true
  | .Rwstat tag => u16le tag

/-- getRMessageType (src/messages.go): the wire type byte of each
R-message variant. -/
def getRMessageType : RMsg → Nat
  | .Rversion .. => RversionType
  | .Rauth .. => RauthType
  | .Rattach .. => RattachType
  | .Rerror .. => RerrorType
  | .Rflush .. => RflushType
  | .Rwalk .. => RwalkType
  | .Ropen .. => RopenType
  | .Rcreate .. => RcreateType
  | .Rread .. => RreadType
  | .Rwrite .. => RwriteType
  | .Rclunk .. => RclunkType
  | .Rremove .. => RremoveType
  | .Rstat .. => RstatType
  | .Rwstat .. => RwstatType

/-- SerializeMessage (src/messages.go): frame = u32 size (payload
length plus five, after the uint32 conversion), the type byte, then the
payload. -/
def SerializeMessage (m : RMsg) : Bytes :=
  let b := rmsgPayload m
  u32le ((b.length + 5) % 4294967296) ++ [getRMessageType m] ++ b

/-! ## Decoding (src/messages.go DeserializeMessage and readers) -/

/-- Decoder-side errors.  eof models io.EOF (no byte available at all),
unexpectedEof models io.ErrUnexpectedEOF (stream ended mid-read), and
unknownMessageType models the error returned for a type byte outside
the T-message switch. -/
inductive DecErr where
  | eof
  | unexpectedEof
  | unknownMessageType
deriving DecidableEq, Repr

/-- io.ReadFull semantics: take n bytes from the stream; io.EOF when the
stream is empty and bytes were wanted, io.ErrUnexpectedEOF on a partial
read. -/
def readFull (b : Bytes) (n : Nat) : Except DecErr (Bytes × Bytes) :=
  if n ≤ b.length then .ok (b.take n, b.drop n)
  else if b.length = 0 then .error .eof
  else .error .unexpectedEof

/-- Little-endian byte list to number (binary.Read reassembly). -/
def bytesToNatLE : Bytes → Nat
  | [] => 0
  | b :: rest => b + 256 * bytesToNatLE rest

/-- readUint over a w-byte unsigned integer (src/messages.go readUint
via binary.Read, which reads exactly w bytes). -/
def readUintLE (b : Bytes) (w : Nat) : Except DecErr (Nat × Bytes) :=
  match readFull b w with
  | .error e => .error e
  | .ok (x, rest) => .ok (bytesToNatLE x, rest)

/-- readString (src/messages.go): u16 length then that many raw bytes. -/
def readString (b : Bytes) : Except DecErr (GoStr × Bytes) :=
  match readUintLE b 2 with
  | .error e => .error e
  | .ok (n, rest) =>
    match readFull rest n with
    | .error e => .error e
    | .ok (s, rest2) => .ok (s, rest2)

/-- Reading a counted array of strings (the case for a field of type
string slice in deserializeMessage3). -/
def readStrings (b : Bytes) : Nat → Except DecErr (List GoStr × Bytes)
  | 0 => .ok ([], b)
  | n + 1 =>
    match readString b with
    | .error e => .error e
    | .ok (s, rest) =>
      match readStrings rest n with
      | .error e => .error e
      | .ok (ss, rest2) => .ok (s :: ss, rest2)

/-- Outcome of DeserializeMessage over a byte stream.  The source can
also panic: when the declared frame size is exactly 4 the body buffer
is empty and the expression slicing the buffer past its first byte is
out of range. -/
inductive DecodeOutcome where
  | ok (m : TMsg)
  | err (e : DecErr)
  | panicked
deriving DecidableEq, Repr

/-- Length of the body buffer allocated by DeserializeMessage: the Go
expression makes a byte slice of length size minus four where size is a
uint32, so a declared size below four wraps around. -/
def bodyReadLen (size : Nat) : Nat :=
  if 4 ≤ size then size - 4 else size + (4294967296 - 4)

/-- Field decoding for each T-message type byte, mirroring the
deserializeMessage2 call in each case of the switch together with the
deserializeMessage3 field walk over the struct declared in
src/messages.go.  The Twrite and Twstat structs there hold only a Tag
field, so only the tag is read and the modelled extra fields are zero
filled.  Trailing payload bytes are ignored, as in the source. -/
def decodeBody (t : Nat) (p : Bytes) : DecodeOutcome :=
  if t = TauthType then
    match readUintLE p 2 with
    | .error e => .err e
    | .ok (tag, p) =>
      match readUintLE p 4 with
      | .error e => .err e
      | .ok (afid, p) =>
        match readString p with
        | .error e => .err e
        | .ok (uname, p) =>
          match readString p with
          | .error e => .err e
          | .ok (aname, _) => .ok (.Tauth tag afid uname aname)
  else if t = TattachType then
    match readUintLE p 2 with
    | .error e => .err e
    | .ok (tag, p) =>
      match readUintLE p 4 with
      | .error e => .err e
      | .ok (fid, p) =>
        match readUintLE p 4 with
        | .error e => .err e
        | .ok (afid, p) =>
          match readString p with
          | .error e => .err e
          | .ok (uname, p) =>
            match readString p with
            | .error e => .err e
            | .ok (aname, _) => .ok (.Tattach tag fid afid uname aname)
  else if t = TclunkType then
    match readUintLE p 2 with
    | .error e => .err e
    | .ok (tag, p) =>
      match readUintLE p 4 with
      | .error e => .err e
      | .ok (fid, _) => .ok (.Tclunk tag fid)
  else if t = TcreateType then
    match readUintLE p 2 with
    | .error e => .err e
    | .ok (tag, p) =>
      match readUintLE p 4 with
      | .error e => .err e
      | .ok (fid, p) =>
        match readString p with
        | .error e => .err e
        | .ok (name, p) =>
          match readUintLE p 4 with
          | .error e => .err e
          | .ok (perm, p) =>
            match readUintLE p 1 with
            | .error e => .err e
            | .ok (mode, _) => .ok (.Tcreate tag fid name perm mode)
  else if t = TflushType then
    match readUintLE p 2 with
    | .error e => .err e
    | .ok (tag, p) =>
      match readUintLE p 2 with
      | .error e => .err e
      | .ok (oldtag, _) => .ok (.Tflush tag oldtag)
  else if t = TopenType then
    match readUintLE p 2 with
    | .error e => .err e
    | .ok (tag, p) =>
      match readUintLE p 4 with
      | .error e => .err e
      | .ok (fid, p) =>
        match readUintLE p 1 with
        | .error e => .err e
        | .ok (mode, _) => .ok (.Topen tag fid mode)
  else if t = TreadType then
    match readUintLE p 2 with
    | .error e => .err e
    | .ok (tag, p) =>
      match readUintLE p 4 with
      | .error e => .err e
      | .ok (fid, p) =>
        match readUintLE p 8 with
        | .error e => .err e
        | .ok (offset, p) =>
          match readUintLE p 4 with
          | .error e => .err e
          | .ok (count, _) => .ok (.Tread tag fid offset count)
  else if t = TremoveType then
    match readUintLE p 2 with
    | .error e => .err e
    | .ok (tag, p) =>
      match readUintLE p 4 with
      | .error e => .err e
      | .ok (fid, _) => .ok (.Tremove tag fid)
  else if t = TstatType then
    match readUintLE p 2 with
    | .error e => .err e
    | .ok (tag, p) =>
      match readUintLE p 4 with
      | .error e => .err e
      | .ok (fid, _) => .ok (.Tstat tag fid)
  else if t = TversionType then
    match readUintLE p 2 with
    | .error e => .err e
    | .ok (tag, p) =>
      match readUintLE p 4 with
      | .error e => .err e
      | .ok (msize, p) =>
        match readString p with
        | .error e => .err e
        | .ok (version, _) => .ok (.Tversion tag msize version)
  else if t = TwalkType then
    match readUintLE p 2 with
    | .error e => .err e
    | .ok (tag, p) =>
      match readUintLE p 4 with
      | .error e => .err e
      | .ok (fid, p) =>
        match readUintLE p 4 with
        | .error e => .err e
        | .ok (newfid, p) =>
          match readUintLE p 2 with
          | .error e => .err e
          | .ok (count, p) =>
            match readStrings p count with
            | .error e => .err e
            | .ok (nwname, _) => .ok (.Twalk tag fid newfid nwname)
  else if t = TwriteType then
    match readUintLE p 2 with
    | .error e => .err e
    | .ok (tag, _) => .ok (.Twrite tag 0 0 [])
  else if t = TwstatType then
    match readUintLE p 2 with
    | .error e => .err e
    | .ok (tag, _) =>
        .ok (.Twstat tag 0 ⟨0, 0, ⟨0, 0, 0⟩, 0, 0, 0, 0, [], [], [], []⟩)
  else .err .unknownMessageType

/-- DeserializeMessage (src/messages.go): read the u32 frame size, then
size minus four body bytes (with uint32 wrap-around when size is below
four), then dispatch on the first body byte.  When the body buffer is
empty the source slices it out of range and panics. -/
def DeserializeMessage (s : Bytes) : DecodeOutcome :=
  match readUintLE s 4 with
  | .error e => .err e
  | .ok (size, rest) =>
    match readFull rest (bodyReadLen size) with
    | .error e => .err e
    | .ok (b, _) =>
      match b with
      | [] => .panicked
      | t :: payload => decodeBody t payload

/-! ## Go path.Clean and path.Join

The session joins fid paths with the standard library p.Join; the
functions below embed path.Clean and the two-argument path.Join over
byte strings (47 is the slash byte, 46 the dot byte).  A fuel argument
bounds the scan; it is instantiated so that fuel never runs out. -/

/-- The backtracking scan of the dotdot case of path.Clean: starting
from w, walk left while above dotdot and not on a slash. -/
def btLoop : Nat → Bytes → Nat → Nat → Nat
  | 0, _, _, w => w
  | fuel + 1, out, dotdot, w =>
    if dotdot < w ∧ ¬ out.getD w 0 = 47 then btLoop fuel out dotdot (w - 1)
    else w

/-- Dropping the last path element of the output buffer (path.Clean,
dotdot case, out.w above dotdot). -/
def backtrack (out : Bytes) (dotdot : Nat) : Bytes :=
  out.take (btLoop out.length out dotdot (out.length - 1))

/-- Main scan of path.Clean over the remaining input. -/
def cleanLoop : Nat → Bool → Bytes → Bytes → Nat → Bytes
  | 0, _, _, out, _ => out
  | fuel + 1, rooted, rest, out, dotdot =>
    match rest with
    | [] => out
    | c :: t =>
      if c = 47 then
        cleanLoop fuel rooted t out dotdot
      else if c = 46 ∧ (t = [] ∨ t.head? = some 47) then
        cleanLoop fuel rooted t out dotdot
      else if c = 46 ∧ t.head? = some 46 ∧
          (t.tail = [] ∨ t.tail.head? = some 47) then
        if dotdot < out.length then
          cleanLoop fuel rooted t.tail (backtrack out dotdot) dotdot
        else if rooted = false then
          let out2 := (if out.length ≠ 0 then out ++ [47] else out) ++ [46, 46]
          cleanLoop fuel rooted t.tail out2 out2.length
        else
          cleanLoop fuel rooted t.tail out dotdot
      else
        let elem := rest.takeWhile (fun x => ¬ x = 47)
        let sep : Bytes :=
          if (rooted = true ∧ out.length ≠ 1) ∨ (rooted = false ∧ out.length ≠ 0)
          then [47] else []
        cleanLoop fuel rooted (rest.dropWhile (fun x => ¬ x = 47))
          (out ++ sep ++ elem) dotdot

/-- path.Clean over a byte string. -/
def goClean (path : Bytes) : Bytes :=
  if path = [] then [46]
  else
    let rooted := path.head? = some 47
    let out :=
      if rooted then cleanLoop (path.length + 1) true path.tail [47] 1
      else cleanLoop (path.length + 1) false path [] 0
    if out = [] then [46] else out

/-- Two-argument path.Join: first non-empty element onward joined with
a slash, then cleaned. -/
def goJoin (a b : Bytes) : Bytes :=
  if a ≠ [] then goClean (a ++ [47] ++ b)
  else if b ≠ [] then goClean b
  else []

/-! ## Session state machine (src/main.go)

The session owns a fid table mapping a uint32 fid to a path plus an
optional open file handle.  The backing filesystem (the Filesystem and
File interfaces of src/main.go) is modelled as an oracle of pure
functions; a successful open allocates a fresh handle identifier from a
per-session counter.  Two ghost logs instrument the handle lifecycle:
closedLog records every invocation of Close on a handle, installedLog
records every fresh handle bound into the fid table by open or create. -/

/-- String constants of the session (ASCII byte strings). -/
def gostr (s : String) : GoStr := s.data.map Char.toNat

/-- ProtocolVersion.  Modelled from the spec: the constant is referenced
by src/main.go but declared in a repository file not under src; the spec
fixes it to the literal 9P2000. -/
def ProtocolVersion : GoStr := gostr "9P2000"

/-- MaximumMsgSize (src/main.go const block). -/
def MaximumMsgSize : Nat := 8 * 1024

def ENoAuthRequiredStr : GoStr := gostr "no authentication required"
def EIOErrorStr : GoStr := gostr "i/o error"
def ENoSuchFileOrDirectoryStr : GoStr := gostr "file does not exist"
def EBadMessageStr : GoStr := gostr "protocol botch"
def EAlreadyExistsStr : GoStr := gostr "file or directory already exists"
def EDirNotEmptyStr : GoStr := gostr "directory is not empty"

/-- Errors surfaced by the Filesystem interface (src/main.go vars). -/
inductive FsErr where
  | doesNotExist
  | ioError
  | alreadyExists
  | dirNotEmpty
deriving DecidableEq, Repr

/-- Attributes a File handle exposes (Qid and IsDir of src/main.go File). -/
structure FileAttrs where
  isDir : Bool
  qid : Qid
deriving DecidableEq, Repr

/-- An open file handle: identity plus attributes. -/
structure Handle where
  id : Nat
  attrs : FileAttrs
deriving DecidableEq, Repr

/-- An entry of the fid table: path plus optional handle (the anonymous
struct inside session.fids in src/main.go). -/
structure FidEntry where
  path : GoStr
  file : Option Handle
deriving DecidableEq, Repr

/-- The filesystem oracle (Filesystem and File interfaces of
src/main.go).  openFile yields the attributes of the opened file;
fileRead and fileWrite act on a handle identity. -/
structure Fs where
  openFile : GoStr → Nat → Except FsErr FileAttrs
  createDir : GoStr → Except FsErr Unit
  createFile : GoStr → Except FsErr Unit
  readDir : GoStr → Except FsErr (List Stat)
  remove : GoStr → Except FsErr Unit
  stat : GoStr → Except FsErr Stat
  wstat : GoStr → Stat → Except FsErr Unit
  fileRead : Nat → Nat → Nat → Except FsErr Bytes
  fileWrite : Nat → Nat → Bytes → Except FsErr Unit

/-- Session state (src/main.go session struct) with ghost logs. -/
structure SessionState where
  receivedVersion : Bool
  maxsize : Nat
  fids : List (Nat × FidEntry)
  nextHandle : Nat
  closedLog : List Nat
  installedLog : List Nat
deriving DecidableEq, Repr

/-- Map lookup over the fid table (session.getFid). -/
def fidGet : List (Nat × FidEntry) → Nat → Option FidEntry
  | [], _ => none
  | (k, v) :: t, fid => if k = fid then some v else fidGet t fid

/-- Map insert or overwrite (session.setFid). -/
def fidSet : List (Nat × FidEntry) → Nat → FidEntry → List (Nat × FidEntry)
  | [], fid, v => [(fid, v)]
  | (k, w) :: t, fid, v =>
    if k = fid then (fid, v) :: t else (k, w) :: fidSet t fid v

/-- Map delete (session.deleteFid).  A Go map holds each key at most
once, so removing every pair with the key models the builtin delete. -/
def fidDel (l : List (Nat × FidEntry)) (fid : Nat) : List (Nat × FidEntry) :=
  l.filter (fun p => p.1 != fid)

/-- Handler-level errors: the session-level invalid fid, the filesystem
errors, and the fatal unexpected-message error (src/main.go vars
ErrInvalidFid and ErrUnexpectedMessage). -/
inductive HandlerErr where
  | invalidFid
  | fsE (e : FsErr)
  | unexpectedMessage
deriving DecidableEq, Repr

/-- The error translation table of handleNextMsg (src/main.go). -/
def enameOf : HandlerErr → GoStr
  | .invalidFid => EBadMessageStr
  | .fsE .ioError => EIOErrorStr
  | .fsE .doesNotExist => ENoSuchFileOrDirectoryStr
  | .fsE .alreadyExists => EAlreadyExistsStr
  | .fsE .dirNotEmpty => EDirNotEmptyStr
  | .unexpectedMessage => []

/-- Invoking Close on a handle (ghost-logged). -/
def closeFile (st : SessionState) (h : Handle) : SessionState :=
  { st with closedLog := st.closedLog ++ [h.id] }

/-- Allocation of a fresh handle by a successful filesystem open; the
handle is logged as installed because both call sites immediately bind
it into the fid table. -/
def allocHandle (st : SessionState) (a : FileAttrs) : Handle × SessionState :=
  (⟨st.nextHandle, a⟩,
   { st with
      nextHandle := st.nextHandle + 1,
      installedLog := st.installedLog ++ [st.nextHandle] })

/-- session.setFid. -/
def setFid (st : SessionState) (fid : Nat) (path : GoStr)
    (file : Option Handle) : SessionState :=
  { st with fids := fidSet st.fids fid ⟨path, file⟩ }

/-- session.deleteFid. -/
def deleteFid (st : SessionState) (fid : Nat) : SessionState :=
  { st with fids := fidDel st.fids fid }

/-- Result of one handler: the state after its side effects together
with either the reply it sends or the error it returns. -/
abbrev HRes := SessionState × Except HandlerErr RMsg

/-- handleAuth: unconditional refusal by a direct Rerror. -/
def handleAuth (st : SessionState) (tag : Nat) : HRes :=
  (st, .ok (.Rerror tag ENoAuthRequiredStr))

/-- handleAttach: stat the root, bind the fid to the root path with no
handle, reply Rattach with the root Qid. -/
def handleAttach (fs : Fs) (st : SessionState) (tag fid : Nat) : HRes :=
  match fs.stat (gostr "/") with
  | .error e => (st, .error (.fsE e))
  | .ok s => (setFid st fid (gostr "/") none, .ok (.Rattach tag s.qid))

/-- handleClunk: close the handle if present, remove the fid, reply. -/
def handleClunk (st : SessionState) (tag fid : Nat) : HRes :=
  match fidGet st.fids fid with
  | none => (st, .error .invalidFid)
  | some e =>
    let st1 := match e.file with
      | some h => closeFile st h
      | none => st
    (deleteFid st1 fid, .ok (.Rclunk tag))

/-- Open modes.  Modelled from the spec: the constants are referenced by
src/main.go and src/server.go but declared in a repository file not
under src; the spec, section 6, fixes OREAD = 0, OWRITE = 1, ORDWR = 2,
OEXEC = 3 and OTRUNC = 0x10. -/
def OREAD : Nat := 0
def OWRITE : Nat := 1
def ORDWR : Nat := 2
def OEXEC : Nat := 3
def OTRUNC : Nat := 0x10

/-- handleCreate: create a directory or file depending on the DMDIR bit
of perm, open the created path with ORDWR, bind the handle to the fid.
The Rcreate literal in the source omits the Tag field, so the reply
carries the zero value tag. -/
def handleCreate (fs : Fs) (st : SessionState) (_tag fid : Nat)
    (name : GoStr) (perm _mode : Nat) : HRes :=
  let isDir := Nat.land perm DMDIR = DMDIR
  match fidGet st.fids fid with
  | none => (st, .error .invalidFid)
  | some e =>
    let fullPath := goJoin e.path name
    match (if isDir then fs.createDir fullPath else fs.createFile fullPath) with
    | .error er => (st, .error (.fsE er))
    | .ok _ =>
      match fs.openFile fullPath ORDWR with
      | .error er => (st, .error (.fsE er))
      | .ok a =>
        let (h, st1) := allocHandle st a
        (setFid st1 fid fullPath (some h), .ok (.Rcreate 0 a.qid 0))

/-- handleFlush: immediate Rflush. -/
def handleFlush (st : SessionState) (tag : Nat) : HRes :=
  (st, .ok (.Rflush tag))

/-- handleOpen: look up the path of the fid, open it, bind the new
handle.  The existing handle of the fid, if any, is discarded without
being closed, as in the source. -/
def handleOpen (fs : Fs) (st : SessionState) (tag fid mode : Nat) : HRes :=
  match fidGet st.fids fid with
  | none => (st, .error .invalidFid)
  | some e =>
    match fs.openFile e.path mode with
    | .error er => (st, .error (.fsE er))
    | .ok a =>
      let (h, st1) := allocHandle st a
      (setFid st1 fid e.path (some h), .ok (.Ropen tag a.qid 0))

/-- handleReadDir: assemble the directory payload: stat of the dot join
with name overridden to dot, stat of the dotdot join with name
overridden to dotdot, then each ReadDir entry, every record with the
single inner length prefix; then slice by offset and count. -/
def handleReadDir (fs : Fs) (st : SessionState) (tag : Nat) (path : GoStr)
    (offset count : Nat) : HRes :=
  match fs.stat (goJoin path (gostr ".")) with
  | .error e => (st, .error (.fsE e))
  | .ok dotStat =>
    let b1 := serializeStat { dotStat with name := gostr "." } false
    match fs.stat (goJoin path (gostr "..")) with
    | .error e => (st, .error (.fsE e))
    | .ok ddStat =>
      let b2 := serializeStat { ddStat with name := gostr ".." } false
      match fs.readDir path with
      | .error e => (st, .error (.fsE e))
      | .ok stats =>
        let bytes := b1 ++ b2 ++ (stats.map (serializeStat · false)).flatten
        let data : Bytes :=
          if offset < bytes.length then
            (bytes.drop offset).take (min (offset + count) bytes.length - offset)
          else []
        (st, .ok (.Rread tag data))

/-- handleRead: dispatch on the handle; a fid without a handle is an
invalid fid; a directory handle goes through handleReadDir, a file
handle through File.Read. -/
def handleRead (fs : Fs) (st : SessionState) (tag fid offset count : Nat) :
    HRes :=
  match fidGet st.fids fid with
  | none => (st, .error .invalidFid)
  | some e =>
    match e.file with
    | none => (st, .error .invalidFid)
    | some h =>
      if h.attrs.isDir then handleReadDir fs st tag e.path offset count
      else
        match fs.fileRead h.id offset count with
        | .error er => (st, .error (.fsE er))
        | .ok b => (st, .ok (.Rread tag b))

/-- handleRemove: close any handle, drop the fid, then remove the path;
the fid is gone even when the removal fails. -/
def handleRemove (fs : Fs) (st : SessionState) (tag fid : Nat) : HRes :=
  match fidGet st.fids fid with
  | none => (st, .error .invalidFid)
  | some e =>
    let st1 := match e.file with
      | some h => closeFile st h
      | none => st
    let st2 := deleteFid st1 fid
    match fs.remove e.path with
    | .error er => (st2, .error (.fsE er))
    | .ok _ => (st2, .ok (.Rremove tag))

/-- handleStat. -/
def handleStat (fs : Fs) (st : SessionState) (tag fid : Nat) : HRes :=
  match fidGet st.fids fid with
  | none => (st, .error .invalidFid)
  | some e =>
    match fs.stat e.path with
    | .error er => (st, .error (.fsE er))
    | .ok s => (st, .ok (.Rstat tag s))

/-- handleVersion: clamp maxsize, then either reply unknown and leave
the latch closed, or reply with the protocol version and open it. -/
def handleVersion (st : SessionState) (tag msize : Nat) (version : GoStr) :
    HRes :=
  let st1 := { st with maxsize := min msize MaximumMsgSize }
  if version ≠ ProtocolVersion then
    (st1, .ok (.Rversion tag st1.maxsize (gostr "unknown")))
  else
    ({ st1 with receivedVersion := true },
     .ok (.Rversion tag st1.maxsize ProtocolVersion))

/-- The stat loop of handleWalk: join each component in turn, stat the
joined path, collect the Qids, stop at the first error. -/
def walkPath (fs : Fs) (path : GoStr) :
    List GoStr → Except FsErr (GoStr × List Qid)
  | [] => .ok (path, [])
  | n :: rest =>
    let path1 := goJoin path n
    match fs.stat path1 with
    | .error e => .error e
    | .ok s =>
      match walkPath fs path1 rest with
      | .error e => .error e
      | .ok (p, qs) => .ok (p, s.qid :: qs)

/-- handleWalk: an empty name list copies the source entry (path and
handle reference) to newfid; otherwise the stat loop runs and newfid is
bound to the final path with no handle only if every stat succeeds. -/
def handleWalk (fs : Fs) (st : SessionState) (tag fid newfid : Nat)
    (nwname : List GoStr) : HRes :=
  match fidGet st.fids fid with
  | none => (st, .error .invalidFid)
  | some e =>
    if nwname = [] then
      (setFid st newfid e.path e.file, .ok (.Rwalk tag []))
    else
      match walkPath fs e.path nwname with
      | .error er => (st, .error (.fsE er))
      | .ok (p, qids) => (setFid st newfid p none, .ok (.Rwalk tag qids))

/-- handleWrite (per the head handlers in src/main.go; the data and
offset fields of Twrite are modelled from the spec). -/
def handleWrite (fs : Fs) (st : SessionState) (tag fid offset : Nat)
    (data : Bytes) : HRes :=
  match fidGet st.fids fid with
  | none => (st, .error .invalidFid)
  | some e =>
    match e.file with
    | none => (st, .error .invalidFid)
    | some h =>
      match fs.fileWrite h.id offset data with
      | .error er => (st, .error (.fsE er))
      | .ok _ => (st, .ok (.Rwrite tag (data.length % 4294967296)))

/-- handleWstat. -/
def handleWstat (fs : Fs) (st : SessionState) (tag fid : Nat) (s : Stat) :
    HRes :=
  match fidGet st.fids fid with
  | none => (st, .error .invalidFid)
  | some e =>
    match fs.wstat e.path s with
    | .error er => (st, .error (.fsE er))
    | .ok _ => (st, .ok (.Rwstat tag))

/-- The tag of a T-message (the reflective Tag field access in
handleNextMsg). -/
def tagOf : TMsg → Nat
  | .Tversion tag .. => tag
  | .Tauth tag .. => tag
  | .Tattach tag .. => tag
  | .Tclunk tag _ => tag
  | .Tcreate tag .. => tag
  | .Tflush tag _ => tag
  | .Topen tag .. => tag
  | .Tread tag .. => tag
  | .Tremove tag _ => tag
  | .Tstat tag _ => tag
  | .Twalk tag .. => tag
  | .Twrite tag .. => tag
  | .Twstat tag .. => tag

/-- The dispatch switch of handleNextMsg, applicable once the version
latch is open.  A second Tversion yields the unexpected-message error. -/
def dispatch (fs : Fs) (st : SessionState) : TMsg → HRes
  | .Tversion .. => (st, .error .unexpectedMessage)
  | .Tauth tag _ _ _ => handleAuth st tag
  | .Tattach tag fid _ _ _ => handleAttach fs st tag fid
  | .Tclunk tag fid => handleClunk st tag fid
  | .Tcreate tag fid name perm mode => handleCreate fs st tag fid name perm mode
  | .Tflush tag _ => handleFlush st tag
  | .Topen tag fid mode => handleOpen fs st tag fid mode
  | .Tread tag fid offset count => handleRead fs st tag fid offset count
  | .Tremove tag fid => handleRemove fs st tag fid
  | .Tstat tag fid => handleStat fs st tag fid
  | .Twalk tag fid newfid nwname => handleWalk fs st tag fid newfid nwname
  | .Twrite tag fid offset data => handleWrite fs st tag fid offset data
  | .Twstat tag fid s => handleWstat fs st tag fid s

/-- Whether a message is a Tversion. -/
def isTversion : TMsg → Bool
  | .Tversion .. => true
  | _ => false

/-- handleNextMsg (src/main.go): the version gate, the dispatch, and
the error translation.  The result is the state after the message, the
list of messages sent (at most one), and an optional fatal error that
terminates the session. -/
def handleNextMsg (fs : Fs) (st : SessionState) (m : TMsg) :
    SessionState × List RMsg × Option HandlerErr :=
  if st.receivedVersion = false then
    match m with
    | .Tversion tag msize version =>
      match handleVersion st tag msize version with
      | (st1, .ok r) => (st1, [r], none)
      | (st1, .error e) => (st1, [], some e)
    | _ => (st, [], some .unexpectedMessage)
  else
    match dispatch fs st m with
    | (st1, .ok r) => (st1, [r], none)
    | (st1, .error .unexpectedMessage) => (st1, [], some .unexpectedMessage)
    | (st1, .error e) => (st1, [.Rerror (tagOf m) (enameOf e)], none)

/-- session.clean: Close every handle still bound in the fid table.
The table itself is not emptied by the source. -/
def clean (st : SessionState) : SessionState :=
  { st with
      closedLog :=
        st.closedLog ++ (st.fids.filterMap (fun e => e.2.file)).map Handle.id }

/-- The fresh state of a session (newSession in src/main.go). -/
def initialSession : SessionState :=
  { receivedVersion := false, maxsize := 0, fids := [],
    nextHandle := 0, closedLog := [], installedLog := [] }

/-- The message loop of session.loop: process messages until a fatal
error or the end of the stream. -/
def sessionSteps (fs : Fs) : SessionState → List TMsg →
    SessionState × List RMsg
  | st, [] => (st, [])
  | st, m :: rest =>
    match handleNextMsg fs st m with
    | (st1, out, some _) => (st1, out)
    | (st1, out, none) =>
      let (st2, outs) := sessionSteps fs st1 rest
      (st2, out ++ outs)

/-- A whole session: run the loop from the fresh state, then clean. -/
def runSession (fs : Fs) (msgs : List TMsg) : SessionState × List RMsg :=
  let (st, outs) := sessionSteps fs initialSession msgs
  (clean st, outs)

/-! ## Local provider open flags (src/server.go localFilesystem.Open) -/

/-- os package flag values on Linux. -/
def O_RDONLY : Nat := 0
def O_WRONLY : Nat := 1
def O_RDWR : Nat := 2
def O_TRUNC : Nat := 512

/-- The modeToFlag map literal of localFilesystem.Open: keys OREAD,
OWRITE, ORDWR; a missing key yields the zero value, which equals
O_RDONLY. -/
def modeToFlag (k : Nat) : Nat :=
  if k = OREAD then O_RDONLY
  else if k = OWRITE then O_WRONLY
  else if k = ORDWR then O_RDWR
  else 0

/-- The flag computation of localFilesystem.Open for a regular file:
the map is indexed with the bitwise or of mode and ORDWR, and O_TRUNC
is added when the OTRUNC bit is set.  mode is a uint8. -/
def localOpenFlag (mode : Nat) : Nat :=
  let m := mode % 256
  let flag := modeToFlag (Nat.lor m ORDWR)
  if Nat.land m OTRUNC ≠ 0 then Nat.lor flag O_TRUNC else flag

/-- The flag selection the claim describes: the access flag is chosen
by the low two bits of mode (mask 0x03), with truncation added for the
OTRUNC bit. -/
def claimedOpenFlag (mode : Nat) : Nat :=
  let m := mode % 256
  let access := Nat.land m 0x03
  let flag :=
    if access = OREAD then O_RDONLY
    else if access = OWRITE then O_WRONLY
    else if access = ORDWR then O_RDWR
    else 0
  if Nat.land m OTRUNC ≠ 0 then Nat.lor flag O_TRUNC else flag

/-! ## Concrete demonstration filesystem and traces -/

/-- A fixed Qid for the demonstration provider. -/
def demoQid : Qid := ⟨0x80, 7, 11⟩

/-- A fixed Stat record for the demonstration provider. -/
def demoStat : Stat :=
  { stype := 0, dev := 0, qid := demoQid, mode := 0x800001ED,
    atime := 1, mtime := 1, length := 0,
    name := gostr "/", uid := gostr "?", gid := gostr "?", muid := [] }

/-- A demonstration provider: every path opens and creates
successfully, only the root is a directory, only the root stats
successfully, directories list no entries. -/
def demoFs : Fs :=
  { openFile := fun p _ => .ok ⟨p = gostr "/", demoQid⟩,
    createDir := fun _ => .ok (),
    createFile := fun _ => .ok (),
    readDir := fun _ => .ok [],
    remove := fun _ => .ok (),
    stat := fun p =>
      if p = gostr "/" then .ok demoStat else .error .doesNotExist,
    wstat := fun _ _ => .ok (),
    fileRead := fun _ _ _ => .ok [],
    fileWrite := fun _ _ _ => .ok () }

/-- A session state as it stands after version negotiation and an
attach of fid 0 (used to instantiate theorems about single handlers). -/
def demoAttached : SessionState :=
  { receivedVersion := true, maxsize := 8192,
    fids := [(0, ⟨gostr "/", none⟩)],
    nextHandle := 0, closedLog := [], installedLog := [] }

/-- A session state whose fid 0 holds an open directory handle. -/
def demoDirOpen : SessionState :=
  { receivedVersion := true, maxsize := 8192,
    fids := [(0, ⟨gostr "/", some ⟨0, ⟨true, demoQid⟩⟩⟩)],
    nextHandle := 1, closedLog := [], installedLog := [0] }

/-! ## Handle-sharing invariant (claim C7) -/

/-- Every handle bound in the fid table has an identifier below the
allocation counter. -/
def HandlesBounded (l : List (Nat × FidEntry)) (nh : Nat) : Prop :=
  ∀ k e h, fidGet l k = some e → e.file = some h → h.id < nh

/-- No two distinct live fids hold the same handle. -/
def NoSharedHandles (l : List (Nat × FidEntry)) : Prop :=
  ∀ k1 k2 e1 e2 h1 h2, k1 ≠ k2 →
    fidGet l k1 = some e1 → fidGet l k2 = some e2 →
    e1.file = some h1 → e2.file = some h2 → h1.id ≠ h2.id

/-- The inductive invariant: bounded handle identifiers plus no
sharing. -/
def HandleInv (st : SessionState) : Prop :=
  HandlesBounded st.fids st.nextHandle ∧ NoSharedHandles st.fids

/-- Whether a message is a Twalk with an empty name list (the one
operation that copies a handle reference between fids). -/
def isEmptyWalk : TMsg → Bool
  | .Twalk _ _ _ [] => true
  | _ => false

/-! ## Codec lemmas -/

theorem bytesToNatLE_u32le (n : Nat) : bytesToNatLE (u32le n) = n % 4294967296 := by
  simp only [u32le, bytesToNatLE]
  omega

theorem u32le_length (n : Nat) : (u32le n).length = 4 := rfl

theorem readFull_of_append (a b : Bytes) : readFull (a ++ b) a.length = .ok (a, b) := by
  simp [readFull, List.take_left, List.drop_left]

theorem readFull_exact (b : Bytes) : readFull b b.length = .ok (b, []) := by
  simp [readFull]

theorem readUintLE_u32 (n : Nat) (rest : Bytes) :
    readUintLE (u32le n ++ rest) 4 = .ok (n % 4294967296, rest) := by
  have h := readFull_of_append (u32le n) rest
  rw [u32le_length] at h
  simp [readUintLE, h, bytesToNatLE_u32le]

/-- Decoding a well-sized frame dispatches its type byte on the body. -/
theorem deserialize_frame (rt : Nat) (payload : Bytes)
    (h : payload.length + 5 < 4294967296) :
    DeserializeMessage (u32le ((payload.length + 5) % 4294967296) ++ rt :: payload) =
      decodeBody rt payload := by
  have hm : (payload.length + 5) % 4294967296 = payload.length + 5 := Nat.mod_eq_of_lt h
  have hb : bodyReadLen ((payload.length + 5) % 4294967296) = (rt :: payload).length := by
    simp [hm, bodyReadLen, List.length_cons]
  have hr : readFull (rt :: payload) (payload.length + 1) = .ok (rt :: payload, []) := by
    simpa using readFull_exact (rt :: payload)
  simp [DeserializeMessage, readUintLE_u32, hb, hr]

/-- Sanity check against the first vector of src/messages_test.go:
decoding the Tauth frame 19000000665500010000000500756E616D650500616E616D65. -/
example :
    DeserializeMessage
      [0x19, 0, 0, 0, 0x66, 0x55, 0, 1, 0, 0, 0, 5, 0,
       0x75, 0x6E, 0x61, 0x6D, 0x65, 5, 0, 0x61, 0x6E, 0x61, 0x6D, 0x65] =
    .ok (.Tauth 0x55 1 [0x75, 0x6E, 0x61, 0x6D, 0x65]
          [0x61, 0x6E, 0x61, 0x6D, 0x65]) := by rfl

/-- Sanity check against the second vector of src/messages_test.go:
encoding Rversion with tag 0x75, msize 0x15, version "test" gives
1100000065750015000000040074657374. -/
example :
    SerializeMessage (.Rversion 0x75 0x15 [0x74, 0x65, 0x73, 0x74]) =
    [0x11, 0, 0, 0, 0x65, 0x75, 0, 0x15, 0, 0, 0, 4, 0,
     0x74, 0x65, 0x73, 0x74] := by rfl

/-! ## Fid table lemmas -/

theorem fidGet_fidSet (l : List (Nat × FidEntry)) (k : Nat) (v : FidEntry)
    (j : Nat) : fidGet (fidSet l k v) j = if k = j then some v else fidGet l j := by
  induction l with
  | nil => simp [fidSet, fidGet]
  | cons a t ih =>
    obtain ⟨ka, va⟩ := a
    by_cases hk : ka = k
    · subst hk
      by_cases hj : ka = j
      · subst hj
        simp [fidSet, fidGet]
      · simp [fidSet, fidGet, hj]
    · by_cases hj : ka = j
      · subst hj
        have hkj : ¬ k = ka := fun h => hk h.symm
        simp [fidSet, fidGet, hk, hkj]
      · simp [fidSet, fidGet, hk, hj, ih]

theorem fidGet_fidDel (l : List (Nat × FidEntry)) (k j : Nat) :
    fidGet (fidDel l k) j = if j = k then none else fidGet l j := by
  induction l with
  | nil => simp [fidDel, fidGet]
  | cons a t ih =>
    obtain ⟨ka, va⟩ := a
    simp only [fidDel, List.filter_cons] at ih ⊢
    by_cases hk : ka = k
    · subst hk
      simp only [bne_self_eq_false, Bool.false_eq_true, if_false, ih]
      by_cases hj : j = ka
      · simp [hj]
      · have hkj : ¬ ka = j := fun h => hj h.symm
        simp [hj, fidGet, hkj]
    · have hbne : (ka != k) = true := bne_iff_ne.mpr hk
      simp only [hbne, if_true, fidGet]
      by_cases hj : ka = j
      · subst hj
        have hjk : ¬ ka = k := hk
        simp [fidGet, hjk]
      · simp [fidGet, hj, ih]

/-! ## Invariant preservation -/

theorem inv_install_none (l : List (Nat × FidEntry)) (nh k : Nat) (p : GoStr)
    (hb : HandlesBounded l nh) (hs : NoSharedHandles l) :
    HandlesBounded (fidSet l k ⟨p, none⟩) nh ∧
      NoSharedHandles (fidSet l k ⟨p, none⟩) := by
  constructor
  · intro j e h hg hf
    rw [fidGet_fidSet] at hg
    by_cases hj : k = j
    · rw [if_pos hj] at hg
      cases hg
      cases hf
    · rw [if_neg hj] at hg
      exact hb j e h hg hf
  · intro k1 k2 e1 e2 h1 h2 hne hg1 hg2 hf1 hf2
    rw [fidGet_fidSet] at hg1 hg2
    by_cases hj1 : k = k1
    · rw [if_pos hj1] at hg1
      cases hg1
      cases hf1
    · rw [if_neg hj1] at hg1
      by_cases hj2 : k = k2
      · rw [if_pos hj2] at hg2
        cases hg2
        cases hf2
      · rw [if_neg hj2] at hg2
        exact hs k1 k2 e1 e2 h1 h2 hne hg1 hg2 hf1 hf2

theorem inv_install_fresh (l : List (Nat × FidEntry)) (nh k : Nat)
    (p : GoStr) (a : FileAttrs)
    (hb : HandlesBounded l nh) (hs : NoSharedHandles l) :
    HandlesBounded (fidSet l k ⟨p, some ⟨nh, a⟩⟩) (nh + 1) ∧
      NoSharedHandles (fidSet l k ⟨p, some ⟨nh, a⟩⟩) := by
  constructor
  · intro j e h hg hf
    rw [fidGet_fidSet] at hg
    by_cases hj : k = j
    · rw [if_pos hj] at hg
      cases hg
      cases hf
      exact Nat.lt_succ_self nh
    · rw [if_neg hj] at hg
      exact Nat.lt_succ_of_lt (hb j e h hg hf)
  · intro k1 k2 e1 e2 h1 h2 hne hg1 hg2 hf1 hf2
    rw [fidGet_fidSet] at hg1 hg2
    by_cases hj1 : k = k1
    · rw [if_pos hj1] at hg1
      cases hg1
      cases hf1
      rw [if_neg (show ¬ k = k2 from fun h => hne (hj1.symm.trans h))] at hg2
      have hlt := hb k2 e2 h2 hg2 hf2
      show nh ≠ h2.id
      omega
    · rw [if_neg hj1] at hg1
      by_cases hj2 : k = k2
      · rw [if_pos hj2] at hg2
        cases hg2
        cases hf2
        have hlt := hb k1 e1 h1 hg1 hf1
        show h1.id ≠ nh
        omega
      · rw [if_neg hj2] at hg2
        exact hs k1 k2 e1 e2 h1 h2 hne hg1 hg2 hf1 hf2

theorem inv_delete (l : List (Nat × FidEntry)) (nh k : Nat)
    (hb : HandlesBounded l nh) (hs : NoSharedHandles l) :
    HandlesBounded (fidDel l k) nh ∧ NoSharedHandles (fidDel l k) := by
  constructor
  · intro j e h hg hf
    rw [fidGet_fidDel] at hg
    by_cases hj : j = k
    · rw [if_pos hj] at hg
      cases hg
    · rw [if_neg hj] at hg
      exact hb j e h hg hf
  · intro k1 k2 e1 e2 h1 h2 hne hg1 hg2 hf1 hf2
    rw [fidGet_fidDel] at hg1 hg2
    by_cases hj1 : k1 = k
    · rw [if_pos hj1] at hg1
      cases hg1
    · rw [if_neg hj1] at hg1
      by_cases hj2 : k2 = k
      · rw [if_pos hj2] at hg2
        cases hg2
      · rw [if_neg hj2] at hg2
        exact hs k1 k2 e1 e2 h1 h2 hne hg1 hg2 hf1 hf2

theorem handleAttach_inv (fs : Fs) (st : SessionState) (tag fid : Nat)
    (hi : HandleInv st) : HandleInv (handleAttach fs st tag fid).1 := by
  obtain ⟨hb, hs⟩ := hi
  unfold handleAttach
  split
  · exact ⟨hb, hs⟩
  · exact inv_install_none st.fids st.nextHandle fid (gostr "/") hb hs

theorem handleClunk_inv (st : SessionState) (tag fid : Nat)
    (hi : HandleInv st) : HandleInv (handleClunk st tag fid).1 := by
  obtain ⟨hb, hs⟩ := hi
  unfold handleClunk
  split
  · exact ⟨hb, hs⟩
  · dsimp only
    split
    · exact inv_delete st.fids st.nextHandle fid hb hs
    · exact inv_delete st.fids st.nextHandle fid hb hs

theorem handleCreate_inv (fs : Fs) (st : SessionState) (tag fid : Nat)
    (name : GoStr) (perm mode : Nat) (hi : HandleInv st) :
    HandleInv (handleCreate fs st tag fid name perm mode).1 := by
  obtain ⟨hb, hs⟩ := hi
  unfold handleCreate
  split
  · exact ⟨hb, hs⟩
  · dsimp only
    split
    · exact ⟨hb, hs⟩
    · split
      · exact ⟨hb, hs⟩
      · dsimp only [allocHandle]
        exact inv_install_fresh st.fids st.nextHandle fid _ _ hb hs

theorem handleOpen_inv (fs : Fs) (st : SessionState) (tag fid mode : Nat)
    (hi : HandleInv st) : HandleInv (handleOpen fs st tag fid mode).1 := by
  obtain ⟨hb, hs⟩ := hi
  unfold handleOpen
  split
  · exact ⟨hb, hs⟩
  · dsimp only
    split
    · exact ⟨hb, hs⟩
    · dsimp only [allocHandle]
      exact inv_install_fresh st.fids st.nextHandle fid _ _ hb hs

theorem handleReadDir_inv (fs : Fs) (st : SessionState) (tag : Nat)
    (path : GoStr) (offset count : Nat) (hi : HandleInv st) :
    HandleInv (handleReadDir fs st tag path offset count).1 := by
  unfold handleReadDir
  split
  · exact hi
  · dsimp only
    split
    · exact hi
    · split
      · exact hi
      · exact hi

theorem handleRead_inv (fs : Fs) (st : SessionState)
    (tag fid offset count : Nat) (hi : HandleInv st) :
    HandleInv (handleRead fs st tag fid offset count).1 := by
  unfold handleRead
  split
  · exact hi
  · split
    · exact hi
    · split
      · exact handleReadDir_inv fs st tag _ offset count hi
      · split
        · exact hi
        · exact hi

theorem handleRemove_inv (fs : Fs) (st : SessionState) (tag fid : Nat)
    (hi : HandleInv st) : HandleInv (handleRemove fs st tag fid).1 := by
  obtain ⟨hb, hs⟩ := hi
  unfold handleRemove
  split
  · exact ⟨hb, hs⟩
  · dsimp only
    split
    · split
      · exact inv_delete st.fids st.nextHandle fid hb hs
      · exact inv_delete st.fids st.nextHandle fid hb hs
    · split
      · exact inv_delete st.fids st.nextHandle fid hb hs
      · exact inv_delete st.fids st.nextHandle fid hb hs

theorem handleStat_inv (fs : Fs) (st : SessionState) (tag fid : Nat)
    (hi : HandleInv st) : HandleInv (handleStat fs st tag fid).1 := by
  unfold handleStat
  split
  · exact hi
  · split
    · exact hi
    · exact hi

theorem handleVersion_inv (st : SessionState) (tag msize : Nat)
    (version : GoStr) (hi : HandleInv st) :
    HandleInv (handleVersion st tag msize version).1 := by
  obtain ⟨hb, hs⟩ := hi
  unfold handleVersion
  split
  · exact ⟨hb, hs⟩
  · exact ⟨hb, hs⟩

theorem handleWalk_inv (fs : Fs) (st : SessionState) (tag fid newfid : Nat)
    (nwname : List GoStr) (hn : nwname ≠ []) (hi : HandleInv st) :
    HandleInv (handleWalk fs st tag fid newfid nwname).1 := by
  obtain ⟨hb, hs⟩ := hi
  unfold handleWalk
  split
  · exact ⟨hb, hs⟩
  · split
    · rename_i hc
      exact absurd hc hn
    · split
      · exact ⟨hb, hs⟩
      · exact inv_install_none st.fids st.nextHandle newfid _ hb hs

theorem handleWrite_inv (fs : Fs) (st : SessionState) (tag fid offset : Nat)
    (data : Bytes) (hi : HandleInv st) :
    HandleInv (handleWrite fs st tag fid offset data).1 := by
  unfold handleWrite
  split
  · exact hi
  · split
    · exact hi
    · split
      · exact hi
      · exact hi

theorem handleWstat_inv (fs : Fs) (st : SessionState) (tag fid : Nat)
    (s : Stat) (hi : HandleInv st) :
    HandleInv (handleWstat fs st tag fid s).1 := by
  unfold handleWstat
  split
  · exact hi
  · split
    · exact hi
    · exact hi

theorem dispatch_inv (fs : Fs) (st : SessionState) (m : TMsg)
    (hm : isEmptyWalk m = false) (hi : HandleInv st) :
    HandleInv (dispatch fs st m).1 := by
  cases m with
  | Tversion tag msize version => exact hi
  | Tauth tag afid uname aname => exact hi
  | Tattach tag fid afid uname aname => exact handleAttach_inv fs st tag fid hi
  | Tclunk tag fid => exact handleClunk_inv st tag fid hi
  | Tcreate tag fid name perm mode =>
    exact handleCreate_inv fs st tag fid name perm mode hi
  | Tflush tag oldtag => exact hi
  | Topen tag fid mode => exact handleOpen_inv fs st tag fid mode hi
  | Tread tag fid offset count =>
    exact handleRead_inv fs st tag fid offset count hi
  | Tremove tag fid => exact handleRemove_inv fs st tag fid hi
  | Tstat tag fid => exact handleStat_inv fs st tag fid hi
  | Twalk tag fid newfid nwname =>
    refine handleWalk_inv fs st tag fid newfid nwname ?_ hi
    intro hc
    subst hc
    simp [isEmptyWalk] at hm
  | Twrite tag fid offset data =>
    exact handleWrite_inv fs st tag fid offset data hi
  | Twstat tag fid s => exact handleWstat_inv fs st tag fid s hi

theorem handleNextMsg_inv (fs : Fs) (st : SessionState) (m : TMsg)
    (hm : isEmptyWalk m = false) (hi : HandleInv st) :
    HandleInv (handleNextMsg fs st m).1 := by
  unfold handleNextMsg
  split
  · split
    · rename_i tag msize version
      split
      · rename_i st1 r heq
        have h2 := handleVersion_inv st tag msize version hi
        rw [heq] at h2
        exact h2
      · rename_i st1 e heq
        have h2 := handleVersion_inv st tag msize version hi
        rw [heq] at h2
        exact h2
    · exact hi
  · split
    · rename_i st1 r heq
      have h2 := dispatch_inv fs st m hm hi
      rw [heq] at h2
      exact h2
    · rename_i st1 heq
      have h2 := dispatch_inv fs st m hm hi
      rw [heq] at h2
      exact h2
    · rename_i st1 e heq hne
      have h2 := dispatch_inv fs st m hm hi
      rw [hne] at h2
      exact h2

theorem sessionSteps_inv (fs : Fs) (msgs : List TMsg) :
    ∀ st : SessionState, HandleInv st →
      (∀ m ∈ msgs, isEmptyWalk m = false) →
      HandleInv (sessionSteps fs st msgs).1 := by
  induction msgs with
  | nil => intro st hi _; exact hi
  | cons m rest ih =>
    intro st hi hall
    have hm : isEmptyWalk m = false := hall m (List.mem_cons_self m rest)
    have hstep := handleNextMsg_inv fs st m hm hi
    unfold sessionSteps
    split
    · rename_i st1 out e heq
      rw [heq] at hstep
      exact hstep
    · rename_i st1 out heq
      rw [heq] at hstep
      dsimp only at hstep ⊢
      have := ih st1 hstep (fun x hx => hall x (List.mem_cons_of_mem m hx))
      exact this

theorem walkPath_length (fs : Fs) (names : List GoStr) :
    ∀ path p qids, walkPath fs path names = .ok (p, qids) →
      qids.length = names.length := by
  induction names with
  | nil =>
    intro path p qids h
    simp only [walkPath] at h
    cases h
    rfl
  | cons n rest ih =>
    intro path p qids h
    simp only [walkPath] at h
    split at h
    · cases h
    · split at h
      · cases h
      · rename_i s hs p2 qs hrest
        cases h
        simp [ih _ _ _ hrest]

/-! ## Claims -/

/-- C1 (counterexample): the round trip fails on a concrete R-message.
Decoding the byte stream produced by encoding Rclunk with tag 0 does
not yield the message back; it yields the unknown-message-type error,
because DeserializeMessage dispatches only on T-message type bytes. -/
theorem decode_encode_rclunk_fails :
    DeserializeMessage (SerializeMessage (RMsg.Rclunk 0)) =
      DecodeOutcome.err DecErr.unknownMessageType := by rfl

/-- C1 (amended): for every constructible R-message whose encoded
payload fits the u32 frame size field, DeserializeMessage applied to
the output of SerializeMessage returns the unknown-message-type error
rather than the message: the decoder recognises only T-message type
bytes. -/
theorem decode_encode_rmsg_unknown_type (m : RMsg)
    (h : (rmsgPayload m).length + 5 < 4294967296) :
    DeserializeMessage (SerializeMessage m) =
      DecodeOutcome.err DecErr.unknownMessageType := by
  have hs : SerializeMessage m =
      u32le (((rmsgPayload m).length + 5) % 4294967296) ++
        getRMessageType m :: rmsgPayload m := by
    simp [SerializeMessage]
  rw [hs, deserialize_frame _ _ h]
  cases m <;> rfl

/-- C1 (witness): the amended theorem applied to Rclunk with tag 3. -/
theorem decode_encode_rmsg_unknown_type_witness :
    (rmsgPayload (RMsg.Rclunk 3)).length + 5 < 4294967296 ∧
    DeserializeMessage (SerializeMessage (RMsg.Rclunk 3)) =
      DecodeOutcome.err DecErr.unknownMessageType :=
  ⟨by decide, decode_encode_rmsg_unknown_type (RMsg.Rclunk 3) (by decide)⟩

/-- C10 (failing input): the four-byte stream declaring frame size 4
makes DeserializeMessage panic (the body buffer is empty and the source
slices it out of range) instead of returning Eof or BadMessage; and a
frame declaring size 3 makes the source attempt to read 4294967295
body bytes, far more than the declared size, because the uint32
subtraction wraps. -/
theorem deserialize_small_frame_bug :
    DeserializeMessage [4, 0, 0, 0] = DecodeOutcome.panicked ∧
    bodyReadLen 3 = 4294967295 := ⟨rfl, rfl⟩

/-- C2 (failing input): in a session that negotiated the version and
attached fid 0, a successful Tcreate carrying tag 5 is answered by an
Rcreate carrying tag 0: the Rcreate literal in handleCreate omits the
Tag field, so the reply holds the zero value.  The other replies of the
trace do carry their request tag. -/
theorem rcreate_reply_tag_zero :
    (runSession demoFs
      [.Tversion 0 8192 (gostr "9P2000"), .Tattach 1 0 0 [] [],
       .Tcreate 5 0 (gostr "f") 0 0]).2 =
    [.Rversion 0 8192 (gostr "9P2000"), .Rattach 1 demoQid,
     .Rcreate 0 demoQid 0] := by rfl

/-- C3: while receivedVersion is false, any message other than Tversion
makes handleNextMsg return the fatal unexpected-message error with no
reply sent (so nothing but an Rversion can ever be emitted before
version negotiation completes), and once receivedVersion is true a
second Tversion is equally fatal. -/
theorem version_gate (fs : Fs) (st : SessionState) (m : TMsg)
    (h : (st.receivedVersion = false ∧ isTversion m = false) ∨
         (st.receivedVersion = true ∧ isTversion m = true)) :
    handleNextMsg fs st m = (st, [], some HandlerErr.unexpectedMessage) := by
  rcases h with ⟨h1, h2⟩ | ⟨h1, h2⟩
  · cases m <;> simp_all [handleNextMsg, isTversion]
  · cases m <;> simp_all [handleNextMsg, isTversion, dispatch]

/-- C3 (witness): a Tclunk before version negotiation is fatal. -/
theorem version_gate_witness :
    (initialSession.receivedVersion = false ∧
      isTversion (TMsg.Tclunk 0 0) = false) ∧
    handleNextMsg demoFs initialSession (TMsg.Tclunk 0 0) =
      (initialSession, [], some HandlerErr.unexpectedMessage) :=
  ⟨⟨rfl, rfl⟩,
   version_gate demoFs initialSession (TMsg.Tclunk 0 0) (Or.inl ⟨rfl, rfl⟩)⟩

/-- C4: a Tversion received before the gate opens sets maxsize to the
minimum of msize and 8192; a version other than 9P2000 is answered by
Rversion with version unknown and leaves receivedVersion false, the
literal 9P2000 is answered by Rversion with that version and sets
receivedVersion true.  The message is never fatal. -/
theorem tversion_semantics (fs : Fs) (st : SessionState) (tag msize : Nat)
    (version : GoStr) (h : st.receivedVersion = false) :
    (handleNextMsg fs st (.Tversion tag msize version)).1.maxsize =
        min msize 8192 ∧
    (handleNextMsg fs st (.Tversion tag msize version)).2.2 = none ∧
    (if version = ProtocolVersion then
      (handleNextMsg fs st (.Tversion tag msize version)).2.1 =
          [RMsg.Rversion tag (min msize 8192) ProtocolVersion] ∧
        (handleNextMsg fs st (.Tversion tag msize version)).1.receivedVersion
          = true
     else
      (handleNextMsg fs st (.Tversion tag msize version)).2.1 =
          [RMsg.Rversion tag (min msize 8192) (gostr "unknown")] ∧
        (handleNextMsg fs st (.Tversion tag msize version)).1.receivedVersion
          = false) := by
  by_cases hv : version = ProtocolVersion
  · simp [handleNextMsg, h, handleVersion, hv, MaximumMsgSize]
  · simp [handleNextMsg, h, handleVersion, hv, MaximumMsgSize]

/-- C4 (witness): the theorem applied to a fresh session receiving
Tversion with tag 7, msize 100 and the 9P2000 version string. -/
theorem tversion_semantics_witness :
    initialSession.receivedVersion = false ∧
    ((handleNextMsg demoFs initialSession
        (TMsg.Tversion 7 100 ProtocolVersion)).1.maxsize = min 100 8192 ∧
     (handleNextMsg demoFs initialSession
        (TMsg.Tversion 7 100 ProtocolVersion)).2.2 = none ∧
     (if ProtocolVersion = ProtocolVersion then
       (handleNextMsg demoFs initialSession
           (TMsg.Tversion 7 100 ProtocolVersion)).2.1 =
           [RMsg.Rversion 7 (min 100 8192) ProtocolVersion] ∧
         (handleNextMsg demoFs initialSession
            (TMsg.Tversion 7 100 ProtocolVersion)).1.receivedVersion = true
      else
       (handleNextMsg demoFs initialSession
           (TMsg.Tversion 7 100 ProtocolVersion)).2.1 =
           [RMsg.Rversion 7 (min 100 8192) (gostr "unknown")] ∧
         (handleNextMsg demoFs initialSession
            (TMsg.Tversion 7 100 ProtocolVersion)).1.receivedVersion = false)) :=
  ⟨rfl, tversion_semantics demoFs initialSession 7 100 ProtocolVersion rfl⟩

/-- C5: a Twalk with a non-empty name list on a fid present in the
table either succeeds with every component statted, in which case
newfid is bound to the final joined path with no handle and the Rwalk
reply carries exactly one Qid per name component in order, or the first
failing stat surfaces as an Rerror and the fid table is unchanged. -/
theorem twalk_semantics (fs : Fs) (st : SessionState)
    (tag fid newfid : Nat) (nwname : List GoStr) (e : FidEntry)
    (hv : st.receivedVersion = true)
    (hf : fidGet st.fids fid = some e) (hn : nwname ≠ []) :
    (∃ p qids, walkPath fs e.path nwname = .ok (p, qids) ∧
       qids.length = nwname.length ∧
       handleNextMsg fs st (.Twalk tag fid newfid nwname) =
         (setFid st newfid p none, [RMsg.Rwalk tag qids], none)) ∨
    (∃ er, walkPath fs e.path nwname = .error er ∧
       handleNextMsg fs st (.Twalk tag fid newfid nwname) =
         (st, [RMsg.Rerror tag (enameOf (.fsE er))], none)) := by
  cases hw : walkPath fs e.path nwname with
  | error er =>
    right
    refine ⟨er, rfl, ?_⟩
    simp [handleNextMsg, hv, dispatch, handleWalk, hf, hn, hw, tagOf]
  | ok pq =>
    obtain ⟨p, qids⟩ := pq
    left
    refine ⟨p, qids, rfl, walkPath_length fs nwname e.path p qids hw, ?_⟩
    simp [handleNextMsg, hv, dispatch, handleWalk, hf, hn, hw]

/-- C5 (witness): a one-component walk from the attached root to a
non-existent name takes the error branch of the theorem. -/
theorem twalk_semantics_witness :
    (demoAttached.receivedVersion = true ∧
     fidGet demoAttached.fids 0 = some ⟨gostr "/", none⟩ ∧
     ([gostr "x"] : List GoStr) ≠ []) ∧
    ((∃ p qids, walkPath demoFs (gostr "/") [gostr "x"] = .ok (p, qids) ∧
        qids.length = ([gostr "x"] : List GoStr).length ∧
        handleNextMsg demoFs demoAttached (.Twalk 4 0 1 [gostr "x"]) =
          (setFid demoAttached 1 p none, [RMsg.Rwalk 4 qids], none)) ∨
     (∃ er, walkPath demoFs (gostr "/") [gostr "x"] = .error er ∧
        handleNextMsg demoFs demoAttached (.Twalk 4 0 1 [gostr "x"]) =
          (demoAttached, [RMsg.Rerror 4 (enameOf (.fsE er))], none))) :=
  ⟨⟨rfl, rfl, by simp⟩,
   twalk_semantics demoFs demoAttached 4 0 1 [gostr "x"]
     ⟨gostr "/", none⟩ rfl rfl (by simp)⟩

/-- C6: a Tread on a fid holding a directory handle at a clean path P
replies with the slice, delimited by offset and count, of the buffer
holding the stat record of P renamed to dot, the stat record of the
parent join renamed to dotdot, and the provider entries in enumeration
order, each with the single inner u16 length prefix; the slice is empty
when offset is not below the buffer length. -/
theorem tread_dir_semantics (fs : Fs) (st : SessionState)
    (tag fid offset count : Nat) (P : GoStr) (h : Handle)
    (s1 s2 : Stat) (entries : List Stat)
    (hv : st.receivedVersion = true)
    (hf : fidGet st.fids fid = some ⟨P, some h⟩)
    (hd : h.attrs.isDir = true)
    (hdot : goJoin P (gostr ".") = P)
    (h1 : fs.stat P = .ok s1)
    (h2 : fs.stat (goJoin P (gostr "..")) = .ok s2)
    (h3 : fs.readDir P = .ok entries) :
    handleNextMsg fs st (.Tread tag fid offset count) =
      (st,
       [RMsg.Rread tag
         (let buffer :=
            serializeStat { s1 with name := gostr "." } false ++
            serializeStat { s2 with name := gostr ".." } false ++
            (entries.map (serializeStat · false)).flatten
          if offset < buffer.length then
            (buffer.drop offset).take
              (min (offset + count) buffer.length - offset)
          else [])], none) := by
  simp [handleNextMsg, hv, dispatch, handleRead, hf, hd, handleReadDir,
    hdot, h1, h2, h3]

/-- C6 (witness): reading the open root directory of the demonstration
provider at offset 0 with count 200. -/
theorem tread_dir_semantics_witness :
    (demoDirOpen.receivedVersion = true ∧
     fidGet demoDirOpen.fids 0 =
       some ⟨gostr "/", some ⟨0, ⟨true, demoQid⟩⟩⟩ ∧
     goJoin (gostr "/") (gostr ".") = gostr "/" ∧
     demoFs.stat (gostr "/") = .ok demoStat ∧
     demoFs.stat (goJoin (gostr "/") (gostr "..")) = .ok demoStat ∧
     demoFs.readDir (gostr "/") = .ok []) ∧
    handleNextMsg demoFs demoDirOpen (.Tread 9 0 0 200) =
      (demoDirOpen,
       [RMsg.Rread 9
         (let buffer :=
            serializeStat { demoStat with name := gostr "." } false ++
            serializeStat { demoStat with name := gostr ".." } false ++
            (([] : List Stat).map (serializeStat · false)).flatten
          if 0 < buffer.length then
            (buffer.drop 0).take (min (0 + 200) buffer.length - 0)
          else [])], none) :=
  ⟨⟨rfl, rfl, rfl, rfl, rfl, rfl⟩,
   tread_dir_semantics demoFs demoDirOpen 9 0 0 200 (gostr "/")
     ⟨0, ⟨true, demoQid⟩⟩ demoStat demoStat []
     rfl rfl rfl rfl rfl rfl rfl⟩

/-- C7 (counterexample): after version negotiation, an attach of fid 0,
a Topen of fid 0, and a Twalk with empty nwname from fid 0 to fid 1,
the two live fids 0 and 1 hold the same handle (identifier 0): the
zero-component walk copies the handle reference, so the no-sharing
invariant is violated at a reachable state. -/
theorem empty_walk_shares_handle :
    ¬ NoSharedHandles
        (runSession demoFs
          [.Tversion 0 8192 (gostr "9P2000"), .Tattach 0 0 0 [] [],
           .Topen 2 0 0, .Twalk 3 0 1 []]).1.fids := by
  intro hns
  exact
    hns 0 1 ⟨gostr "/", some ⟨0, ⟨true, demoQid⟩⟩⟩
      ⟨gostr "/", some ⟨0, ⟨true, demoQid⟩⟩⟩ ⟨0, ⟨true, demoQid⟩⟩
      ⟨0, ⟨true, demoQid⟩⟩ (by decide) rfl rfl rfl rfl rfl

/-- C7 (amended): in every session that receives no Twalk with an empty
name list, no two live fids ever share a handle: every other operation
either installs no handle, installs a freshly allocated handle, or
removes entries, so the no-sharing invariant holds at every point of
the session, the terminal state included. -/
theorem no_shared_handles (fs : Fs) (msgs : List TMsg)
    (h : ∀ m ∈ msgs, isEmptyWalk m = false) :
    NoSharedHandles (runSession fs msgs).1.fids := by
  have hinit : HandleInv initialSession := by
    constructor
    · intro k e hh hg hf
      simp [fidGet, initialSession] at hg
    · intro k1 k2 e1 e2 h1 h2 hne hg1 hg2 hf1 hf2
      simp [fidGet, initialSession] at hg1
  have hrun := sessionSteps_inv fs msgs initialSession hinit h
  rcases hse : sessionSteps fs initialSession msgs with ⟨st, outs⟩
  rw [hse] at hrun
  simp only [runSession, hse]
  exact hrun.2

/-- C7 (witness): a session with version negotiation, attach and open
but no empty walk keeps the no-sharing invariant. -/
theorem no_shared_handles_witness :
    NoSharedHandles
      (runSession demoFs
        [.Tversion 0 8192 (gostr "9P2000"), .Tattach 0 0 0 [] [],
         .Topen 2 0 0]).1.fids :=
  no_shared_handles demoFs
    [.Tversion 0 8192 (gostr "9P2000"), .Tattach 0 0 0 [] [],
     .Topen 2 0 0] (by decide)

/-- C8 (failing input): after version negotiation, attach of fid 0 and
two successive Topen requests on fid 0, the session installed handles 0
and 1 but termination closes only handle 1: the second open displaced
handle 0 from the fid table without closing it, so a handle that was
installed is never closed; the fid table is also not emptied. -/
theorem open_displaced_handle_leak :
    (runSession demoFs
        [.Tversion 0 8192 (gostr "9P2000"), .Tattach 0 0 0 [] [],
         .Topen 2 0 0, .Topen 4 0 0]).1.installedLog = [0, 1] ∧
    (runSession demoFs
        [.Tversion 0 8192 (gostr "9P2000"), .Tattach 0 0 0 [] [],
         .Topen 2 0 0, .Topen 4 0 0]).1.closedLog = [1] ∧
    (runSession demoFs
        [.Tversion 0 8192 (gostr "9P2000"), .Tattach 0 0 0 [] [],
         .Topen 2 0 0, .Topen 4 0 0]).1.fids ≠ [] :=
  ⟨rfl, rfl, by decide⟩

/-- C9 (failing input): the local provider indexes its flag map with
the bitwise or of mode and ORDWR, so a request for OREAD opens the file
read-write and a request for OWRITE falls to the map zero value and
opens it read-only, while the claimed mask of the low two bits would
give read-only and write-only respectively. -/
theorem local_open_flag_bug :
    localOpenFlag OREAD = O_RDWR ∧ localOpenFlag OWRITE = O_RDONLY ∧
    claimedOpenFlag OREAD = O_RDONLY ∧ claimedOpenFlag OWRITE = O_WRONLY := by
  decide

end NineP
